import Mathlib

/-!
Shallow embedding of `src/visualization_app.py`: a Dash dashboard that filters
a table of ERCOT bid records through cascading dropdowns and renders one of two
plotly charts.  The dataframe loaded by `pd.read_csv` is modelled as a list of
records and passed explicitly to every function that reads the global `df`.
-/

/-- Record of the dataframe loaded from `melted_non_renewable.csv`, one row per
bid.  Supply and price bid values are only ever copied from rows into chart
traces, never computed with, so their numeric type is modelled as `Int`;
`Hour Ending` is an integer column. -/
structure BidRecord where
  deliveryDate : String
  resourceName : String
  resourceType : String
  qse : String
  hourEnding : Int
  supplyBidValue : Int
  priceBidValue : Int
deriving Repr, DecidableEq

/-- Elementwise comparison `df[col] == sel` used by the dropdown callbacks,
where `sel` may be Python `None`: in pandas a comparison of a cell with `None`
is `False`, so a `none` selection matches no row. -/
def pandasEq (cell : String) (sel : Option String) : Bool :=
  match sel with
  | none => false
  | some v => cell == v

/-- Embedding of pandas `Series.unique()`: the distinct values of a column in
order of first appearance.  `seen` accumulates the values already emitted. -/
def uniqueAux {α : Type} [DecidableEq α] : List α → List α → List α
  | [], _ => []
  | x :: xs, seen => if x ∈ seen then uniqueAux xs seen else x :: uniqueAux xs (x :: seen)

/-- Distinct values of a list in order of first appearance (pandas `unique`). -/
def uniqueList {α : Type} [DecidableEq α] (l : List α) : List α :=
  uniqueAux l []

/-- Row `(hour - 1) // 6 + 1` of the 4×6 subplot grid in `create_graph1`;
Python `//` is floor division, hence `Int.fdiv`. -/
def subplotRow (hour : Int) : Int :=
  (hour - 1).fdiv 6 + 1

/-- Column `(hour - 1) % 6 + 1` of the 4×6 subplot grid in `create_graph1`;
Python `%` with a positive divisor agrees with `Int.fmod`. -/
def subplotCol (hour : Int) : Int :=
  (hour - 1).fmod 6 + 1

/-- One plotly trace (`go.Scatter`): its data vectors, mode, legend name, and —
when added to a subplot figure — the `row=`/`col=` placement arguments.
Cosmetic styling (marker size) is not modelled. -/
structure Trace where
  x : List Int
  y : List Int
  mode : String
  name : String
  row : Option Int := none
  col : Option Int := none
deriving Repr, DecidableEq

/-- A plotly figure: its traces in insertion order plus the layout attributes
the app sets (subplot grid shape and titles from `make_subplots`, legend
visibility, title, height and width from `update_layout`). -/
structure Figure where
  traces : List Trace := []
  subplotRows : Nat := 0
  subplotCols : Nat := 0
  subplotTitles : List String := []
  showlegend : Option Bool := none
  title : Option String := none
  height : Option Int := none
  width : Option Int := none
deriving Repr, DecidableEq

/-- Empty figure `go.Figure()`. -/
def goFigure : Figure := {}

/-- Boolean row predicate of the mask
`(df['Delivery Date'] == d) & (df['Resource Name'] == u) & (df['QSE'] == g) & (df['Resource Type'] == rt)`
shared by both chart builders. -/
def matchesAll (r : BidRecord) (d u g rt : String) : Bool :=
  r.deliveryDate == d && r.resourceName == u && r.qse == g && r.resourceType == rt

/-- The `filtered_df` computed by both chart builders from fully-specified
selections. -/
def filterDf (df : List BidRecord) (d u g rt : String) : List BidRecord :=
  df.filter (fun r => matchesAll r d u g rt)

/-- Rows of `filtered_df` in the group of a given `Hour Ending` key (the
`hour_df` of both builders). -/
def hourGroup (F : List BidRecord) (h : Int) : List BidRecord :=
  F.filter (fun r => r.hourEnding == h)

/-- Group keys of `filtered_df.groupby('Hour Ending')` in iteration order:
pandas `groupby` sorts the distinct keys ascending. -/
def groupbyHourKeys (F : List BidRecord) : List Int :=
  (uniqueList (F.map (·.hourEnding))).mergeSort (fun a b => decide (a ≤ b))

/-- Scatter trace added by `create_graph1` for one hour group: markers only,
named `Hour {hour}`, placed at the grid cell computed from the hour. -/
def graph1Trace (F : List BidRecord) (h : Int) : Trace :=
  { x := (hourGroup F h).map (·.supplyBidValue)
    y := (hourGroup F h).map (·.priceBidValue)
    mode := "markers"
    name := "Hour " ++ toString h
    row := some (subplotRow h)
    col := some (subplotCol h) }

/-- Embedding of `create_graph1`: the per-hour 4×6 grid of scatter panels.  If
any selection is `None` it returns `go.Figure()`; otherwise it filters on all
four attributes and adds one trace per `groupby('Hour Ending')` group. -/
def create_graph1 (df : List BidRecord) (selected_date selected_unit selected_generator
    selected_resource_type : Option String) : Figure :=
  match selected_date, selected_unit, selected_generator, selected_resource_type with
  | some d, some u, some g, some rt =>
    let F := filterDf df d u g rt
    { traces := (groupbyHourKeys F).map (graph1Trace F)
      subplotRows := 4
      subplotCols := 6
      subplotTitles := (List.range 24).map (fun i => "Hour " ++ toString (i + 1))
      showlegend := some false
      title := some ("Supply vs Price for " ++ d ++ ", " ++ u ++ ", " ++ g ++ ", " ++ rt)
      height := some 800
      width := some 1200 }
  | _, _, _, _ => goFigure

/-- Distinct hours `filtered_df['Hour Ending'].unique()` iterated by
`create_graph2`, in order of first appearance in the filtered rows. -/
def graph2SeriesHours (df : List BidRecord) (d u g rt : String) : List Int :=
  uniqueList ((filterDf df d u g rt).map (·.hourEnding))

/-- Scatter trace added by `create_graph2` for one hour: connected markers
(`markers+lines`), named `Hour {hour}`, no subplot placement. -/
def graph2Trace (F : List BidRecord) (h : Int) : Trace :=
  { x := (hourGroup F h).map (·.supplyBidValue)
    y := (hourGroup F h).map (·.priceBidValue)
    mode := "markers+lines"
    name := "Hour " ++ toString h }

/-- Embedding of `create_graph2`: the combined overlay chart.  If any selection
is `None` it returns `go.Figure()`; otherwise one trace per distinct hour of
the filtered rows, legend shown. -/
def create_graph2 (df : List BidRecord) (selected_date selected_unit selected_generator
    selected_resource_type : Option String) : Figure :=
  match selected_date, selected_unit, selected_generator, selected_resource_type with
  | some d, some u, some g, some rt =>
    let F := filterDf df d u g rt
    { traces := (graph2SeriesHours df d u g rt).map (graph2Trace F)
      showlegend := some true
      title := some ("Supply and Price Bids for " ++ rt ++ ", " ++ g ++ ", " ++ u ++ ", " ++ d) }
  | _, _, _, _ => goFigure

/-- One dropdown option dict `{'label': v, 'value': v}`. -/
structure DropOption where
  label : String
  value : String
deriving Repr, DecidableEq

/-- Embedding of the callback `update_generator_dropdown`: distinct `QSE`
values of the rows matching the selected resource type. -/
def update_generator_dropdown (df : List BidRecord)
    (selected_resource_type : Option String) : List DropOption :=
  match selected_resource_type with
  | none => []
  | some rt =>
    let F := df.filter (fun r => r.resourceType == rt)
    (uniqueList (F.map (·.qse))).map (fun v => ⟨v, v⟩)

/-- Embedding of the callback `update_unit_dropdown`: guards only on the
generator being `None`, then filters on `QSE` and `Resource Type` with the
pandas `== None` semantics for a missing resource type. -/
def update_unit_dropdown (df : List BidRecord)
    (selected_generator selected_resource_type : Option String) : List DropOption :=
  match selected_generator with
  | none => []
  | some _ =>
    let F := df.filter (fun r =>
      pandasEq r.qse selected_generator && pandasEq r.resourceType selected_resource_type)
    (uniqueList (F.map (·.resourceName))).map (fun v => ⟨v, v⟩)

/-- Embedding of the callback `update_date_dropdown`: guards only on the unit
being `None`, then filters on `Resource Name`, `QSE` and `Resource Type` with
the pandas `== None` semantics for missing upstream selections. -/
def update_date_dropdown (df : List BidRecord)
    (selected_unit selected_generator selected_resource_type : Option String) :
    List DropOption :=
  match selected_unit with
  | none => []
  | some _ =>
    let F := df.filter (fun r =>
      pandasEq r.resourceName selected_unit && pandasEq r.qse selected_generator &&
        pandasEq r.resourceType selected_resource_type)
    (uniqueList (F.map (·.deliveryDate))).map (fun v => ⟨v, v⟩)

/-- One entry of `dash.callback_context.triggered`; the app only reads its
`prop_id` field (a string such as `btn-graph1.n_clicks`). -/
structure TriggerEntry where
  prop_id : String
deriving Repr, DecidableEq

/-- Embedding of Python `str.split(sep)` with a one-character separator,
recursing over the character list; splitting the empty string yields `[[]]`,
matching Python's `[''] `. -/
def pySplitChars (sep : Char) : List Char → List (List Char)
  | [] => [[]]
  | c :: cs =>
    match pySplitChars sep cs with
    | [] => [[]]
    | w :: ws => if c = sep then [] :: w :: ws else (c :: w) :: ws

/-- Python `s.split(sep)` on strings. -/
def pySplit (s : String) (sep : Char) : List String :=
  (pySplitChars sep s.data).map String.mk

/-- Embedding of the callback `display_graph`.  `triggered` models
`dash.callback_context.triggered` (empty when no control has fired yet);
`btn1`, `btn2` are the `n_clicks` counters of the two buttons. -/
def display_graph (df : List BidRecord) (triggered : List TriggerEntry)
    (btn1 btn2 : Nat) (selected_date selected_unit selected_generator
    selected_resource_type : Option String) : Figure :=
  match triggered with
  | [] => goFigure
  | t :: _ =>
    let button_id := (pySplit t.prop_id '.').headD ""
    if button_id == "btn-graph1" && decide (0 < btn1) then
      create_graph1 df selected_date selected_unit selected_generator selected_resource_type
    else if button_id == "btn-graph2" && decide (0 < btn2) then
      create_graph2 df selected_date selected_unit selected_generator selected_resource_type
    else goFigure

/-- Process state of the app: the dataframe loaded once at startup.  No
callback assigns to the global `df`, which the state-passing wrappers below
make explicit. -/
structure AppState where
  df : List BidRecord
deriving Repr, DecidableEq

/-- State-passing wrapper of `create_graph1`: reads `st.df`, returns the
figure and the post-call state. -/
def runCreateGraph1 (st : AppState) (d u g rt : Option String) : Figure × AppState :=
  (create_graph1 st.df d u g rt, st)

/-- State-passing wrapper of `create_graph2`. -/
def runCreateGraph2 (st : AppState) (d u g rt : Option String) : Figure × AppState :=
  (create_graph2 st.df d u g rt, st)

/-- State-passing wrapper of `update_generator_dropdown`. -/
def runUpdateGeneratorDropdown (st : AppState) (rt : Option String) :
    List DropOption × AppState :=
  (update_generator_dropdown st.df rt, st)

/-- State-passing wrapper of `update_unit_dropdown`. -/
def runUpdateUnitDropdown (st : AppState) (g rt : Option String) :
    List DropOption × AppState :=
  (update_unit_dropdown st.df g rt, st)

/-- State-passing wrapper of `update_date_dropdown`. -/
def runUpdateDateDropdown (st : AppState) (u g rt : Option String) :
    List DropOption × AppState :=
  (update_date_dropdown st.df u g rt, st)

/-- State-passing wrapper of `display_graph`. -/
def runDisplayGraph (st : AppState) (triggered : List TriggerEntry) (btn1 btn2 : Nat)
    (d u g rt : Option String) : Figure × AppState :=
  (display_graph st.df triggered btn1 btn2 d u g rt, st)

/-- Points `(supply, price)` plotted by one trace: the pairing of its `x` and
`y` vectors. -/
def tracePoints (tr : Trace) : List (Int × Int) :=
  tr.x.zip tr.y

/-- All points plotted anywhere in a figure. -/
def figurePoints (f : Figure) : List (Int × Int) :=
  (f.traces.map tracePoints).flatten

/-- Sample dataframe used to evaluate the development on concrete inputs: three
rows of one unit/generator/type/date slice whose hours appear in the source
order 5, 2, 7 (deliberately not ascending). -/
def sampleDf : List BidRecord :=
  [⟨"d1", "u1", "t1", "g1", 5, 10, 30⟩,
   ⟨"d1", "u1", "t1", "g1", 2, 11, 31⟩,
   ⟨"d1", "u1", "t1", "g1", 7, 12, 32⟩]

/-! Characterisation of `uniqueList` (pandas `unique`): membership, absence of
duplicates, and first-appearance ordering. -/

theorem mem_uniqueAux {α : Type} [DecidableEq α] (a : α) :
    ∀ (l seen : List α), a ∈ uniqueAux l seen ↔ a ∈ l ∧ a ∉ seen := by
  intro l
  induction l with
  | nil => intro seen; simp [uniqueAux]
  | cons x xs ih =>
    intro seen
    by_cases hx : x ∈ seen
    · simp only [uniqueAux, if_pos hx, ih, List.mem_cons]
      constructor
      · rintro ⟨h1, h2⟩
        exact ⟨Or.inr h1, h2⟩
      · rintro ⟨h1 | h1, h2⟩
        · exact absurd (h1 ▸ hx) h2
        · exact ⟨h1, h2⟩
    · simp only [uniqueAux, if_neg hx, List.mem_cons, ih]
      constructor
      · rintro (rfl | ⟨h1, h2⟩)
        · exact ⟨Or.inl rfl, hx⟩
        · exact ⟨Or.inr h1, fun hs => h2 (Or.inr hs)⟩
      · rintro ⟨h1 | h1, h2⟩
        · exact Or.inl h1
        · by_cases hax : a = x
          · exact Or.inl hax
          · exact Or.inr ⟨h1, fun hc => hc.elim hax h2⟩

theorem mem_uniqueList {α : Type} [DecidableEq α] (a : α) (l : List α) :
    a ∈ uniqueList l ↔ a ∈ l := by
  simp [uniqueList, mem_uniqueAux]

theorem nodup_uniqueAux {α : Type} [DecidableEq α] :
    ∀ (l seen : List α), (uniqueAux l seen).Nodup := by
  intro l
  induction l with
  | nil => intro seen; simp [uniqueAux]
  | cons x xs ih =>
    intro seen
    by_cases hx : x ∈ seen
    · simpa [uniqueAux, hx] using ih seen
    · simp only [uniqueAux, if_neg hx, List.nodup_cons]
      refine ⟨fun hmem => ?_, ih _⟩
      exact ((mem_uniqueAux x xs _).mp hmem).2 (List.mem_cons_self x seen)

theorem nodup_uniqueList {α : Type} [DecidableEq α] (l : List α) :
    (uniqueList l).Nodup :=
  nodup_uniqueAux l []

theorem pairwise_indexOf_uniqueAux {α : Type} [DecidableEq α] :
    ∀ (l seen : List α),
      (uniqueAux l seen).Pairwise (fun a b => l.indexOf a < l.indexOf b) := by
  intro l
  induction l with
  | nil => intro seen; simp [uniqueAux]
  | cons x xs ih =>
    intro seen
    have lift : ∀ (s : List α), x ∈ s →
        (uniqueAux xs s).Pairwise (fun a b => (x :: xs).indexOf a < (x :: xs).indexOf b) := by
      intro s hxs
      refine (ih s).imp_of_mem ?_
      intro a b ha hb hab
      have ha2 := (mem_uniqueAux a xs s).mp ha
      have hb2 := (mem_uniqueAux b xs s).mp hb
      have hax : x ≠ a := fun h => ha2.2 (h ▸ hxs)
      have hbx : x ≠ b := fun h => hb2.2 (h ▸ hxs)
      rw [List.indexOf_cons_ne _ hax, List.indexOf_cons_ne _ hbx]
      exact Nat.succ_lt_succ hab
    by_cases hx : x ∈ seen
    · simpa [uniqueAux, hx] using lift seen hx
    · simp only [uniqueAux, if_neg hx, List.pairwise_cons]
      refine ⟨?_, lift (x :: seen) (List.mem_cons_self x seen)⟩
      intro b hb
      have hb2 := (mem_uniqueAux b xs (x :: seen)).mp hb
      have hbx : x ≠ b := fun h => hb2.2 (h ▸ List.mem_cons_self x seen)
      rw [List.indexOf_cons_self, List.indexOf_cons_ne _ hbx]
      exact Nat.succ_pos _

theorem pairwise_indexOf_uniqueList {α : Type} [DecidableEq α] (l : List α) :
    (uniqueList l).Pairwise (fun a b => l.indexOf a < l.indexOf b) :=
  pairwise_indexOf_uniqueAux l []

/-! Membership characterisations of the filtered dataframe, the hour groups,
and the plotted points. -/

theorem mem_filterDf (df : List BidRecord) (d u g rt : String) (r : BidRecord) :
    r ∈ filterDf df d u g rt ↔
      r ∈ df ∧ r.deliveryDate = d ∧ r.resourceName = u ∧ r.qse = g ∧ r.resourceType = rt := by
  simp [filterDf, matchesAll, List.mem_filter, and_assoc]

theorem mem_hourGroup (F : List BidRecord) (h : Int) (r : BidRecord) :
    r ∈ hourGroup F h ↔ r ∈ F ∧ r.hourEnding = h := by
  simp [hourGroup, List.mem_filter]

theorem tracePoints_graph1Trace (F : List BidRecord) (h : Int) :
    tracePoints (graph1Trace F h) =
      (hourGroup F h).map (fun r => (r.supplyBidValue, r.priceBidValue)) := by
  simp [tracePoints, graph1Trace, List.zip_map']

theorem tracePoints_graph2Trace (F : List BidRecord) (h : Int) :
    tracePoints (graph2Trace F h) =
      (hourGroup F h).map (fun r => (r.supplyBidValue, r.priceBidValue)) := by
  simp [tracePoints, graph2Trace, List.zip_map']

theorem mem_groupbyHourKeys (F : List BidRecord) (h : Int) :
    h ∈ groupbyHourKeys F ↔ ∃ r ∈ F, r.hourEnding = h := by
  rw [groupbyHourKeys, List.mem_mergeSort, mem_uniqueList]
  simp [List.mem_map, eq_comm]

theorem mem_graph2SeriesHours (df : List BidRecord) (d u g rt : String) (h : Int) :
    h ∈ graph2SeriesHours df d u g rt ↔ ∃ r ∈ filterDf df d u g rt, r.hourEnding = h := by
  rw [graph2SeriesHours, mem_uniqueList]
  simp [List.mem_map, eq_comm]

theorem mem_figurePoints_graph1 (df : List BidRecord) (d u g rt : String) (p : Int × Int) :
    p ∈ figurePoints (create_graph1 df (some d) (some u) (some g) (some rt)) ↔
      ∃ r ∈ filterDf df d u g rt, p = (r.supplyBidValue, r.priceBidValue) := by
  simp only [figurePoints, create_graph1, List.map_map, List.mem_flatten, List.mem_map]
  constructor
  · rintro ⟨lp, ⟨h, hh, rfl⟩, hplp⟩
    rw [Function.comp_apply, tracePoints_graph1Trace] at hplp
    rcases List.mem_map.mp hplp with ⟨r, hr, rfl⟩
    exact ⟨r, ((mem_hourGroup _ _ _).mp hr).1, rfl⟩
  · rintro ⟨r, hrF, rfl⟩
    refine ⟨_, ⟨r.hourEnding, (mem_groupbyHourKeys _ _).mpr ⟨r, hrF, rfl⟩, rfl⟩, ?_⟩
    rw [Function.comp_apply, tracePoints_graph1Trace]
    exact List.mem_map.mpr ⟨r, (mem_hourGroup _ _ _).mpr ⟨hrF, rfl⟩, rfl⟩

theorem mem_figurePoints_graph2 (df : List BidRecord) (d u g rt : String) (p : Int × Int) :
    p ∈ figurePoints (create_graph2 df (some d) (some u) (some g) (some rt)) ↔
      ∃ r ∈ filterDf df d u g rt, p = (r.supplyBidValue, r.priceBidValue) := by
  simp only [figurePoints, create_graph2, List.map_map, List.mem_flatten, List.mem_map]
  constructor
  · rintro ⟨lp, ⟨h, hh, rfl⟩, hplp⟩
    rw [Function.comp_apply, tracePoints_graph2Trace] at hplp
    rcases List.mem_map.mp hplp with ⟨r, hr, rfl⟩
    exact ⟨r, ((mem_hourGroup _ _ _).mp hr).1, rfl⟩
  · rintro ⟨r, hrF, rfl⟩
    refine ⟨_, ⟨r.hourEnding, (mem_graph2SeriesHours _ _ _ _ _ _).mpr ⟨r, hrF, rfl⟩, rfl⟩, ?_⟩
    rw [Function.comp_apply, tracePoints_graph2Trace]
    exact List.mem_map.mpr ⟨r, (mem_hourGroup _ _ _).mpr ⟨hrF, rfl⟩, rfl⟩

theorem toFinset_uniqueList {α : Type} [DecidableEq α] (l : List α) :
    (uniqueList l).toFinset = l.toFinset := by
  ext a
  simp [List.mem_toFinset, mem_uniqueList]

theorem exists_filterDf_iff (df : List BidRecord) (d u g rt : String) (P : BidRecord → Prop) :
    (∃ r ∈ filterDf df d u g rt, P r) ↔
      ∃ r ∈ df, (r.deliveryDate = d ∧ r.resourceName = u ∧ r.qse = g ∧
        r.resourceType = rt) ∧ P r := by
  constructor
  · rintro ⟨r, hr, hp⟩
    obtain ⟨h0, h1, h2, h3, h4⟩ := (mem_filterDf df d u g rt r).mp hr
    exact ⟨r, h0, ⟨h1, h2, h3, h4⟩, hp⟩
  · rintro ⟨r, h0, ⟨h1, h2, h3, h4⟩, hp⟩
    exact ⟨r, (mem_filterDf df d u g rt r).mpr ⟨h0, h1, h2, h3, h4⟩, hp⟩

theorem fdiv_natCast (m n : Nat) : ((m : Int)).fdiv (n : Int) = ((m / n : Nat) : Int) := by
  cases m <;> cases n <;> first | rfl | (rw [Nat.zero_div]; rfl)

theorem fmod_natCast (m n : Nat) : ((m : Int)).fmod (n : Int) = ((m % n : Nat) : Int) := by
  cases m <;> cases n <;> rfl

theorem subplot_bounds (h : Int) (h1 : 1 ≤ h) (h2 : h ≤ 24) :
    1 ≤ subplotRow h ∧ subplotRow h ≤ 4 ∧ 1 ≤ subplotCol h ∧ subplotCol h ≤ 6 := by
  obtain ⟨k, hk⟩ : ∃ k : Nat, h - 1 = (k : Int) := ⟨(h - 1).toNat, by omega⟩
  have hk23 : k ≤ 23 := by omega
  unfold subplotRow subplotCol
  rw [hk, (by norm_num : (6 : Int) = ((6 : Nat) : Int)), fdiv_natCast, fmod_natCast]
  omega

/-- C1: for a fully-specified quadruple of selections, both chart builders draw
their series from exactly the records whose four attributes equal the
selections — the filtered subset contains precisely the matching records, and
the points plotted by either figure are precisely the `(supply, price)` pairs
of those records. -/
theorem claim_C1_builders_filter_exactly (df : List BidRecord) (d u g rt : String)
    (r : BidRecord) (p : Int × Int) :
    (r ∈ filterDf df d u g rt ↔
      r ∈ df ∧ r.deliveryDate = d ∧ r.resourceName = u ∧ r.qse = g ∧
        r.resourceType = rt) ∧
    (p ∈ figurePoints (create_graph1 df (some d) (some u) (some g) (some rt)) ↔
      ∃ r2 ∈ df, (r2.deliveryDate = d ∧ r2.resourceName = u ∧ r2.qse = g ∧
        r2.resourceType = rt) ∧ p = (r2.supplyBidValue, r2.priceBidValue)) ∧
    (p ∈ figurePoints (create_graph2 df (some d) (some u) (some g) (some rt)) ↔
      ∃ r2 ∈ df, (r2.deliveryDate = d ∧ r2.resourceName = u ∧ r2.qse = g ∧
        r2.resourceType = rt) ∧ p = (r2.supplyBidValue, r2.priceBidValue)) := by
  refine ⟨mem_filterDf df d u g rt r, ?_, ?_⟩
  · rw [mem_figurePoints_graph1, exists_filterDf_iff]
  · rw [mem_figurePoints_graph2, exists_filterDf_iff]

/-- Witness for C1 at a concrete dataset: the sample row with hour 5 is in the
filtered subset and its pair is plotted. -/
theorem claim_C1_builders_filter_exactly_witness :
    (⟨"d1", "u1", "t1", "g1", 5, 10, 30⟩ : BidRecord) ∈
      filterDf sampleDf "d1" "u1" "g1" "t1" ∧
    (10, 30) ∈ figurePoints (create_graph2 sampleDf (some "d1") (some "u1")
      (some "g1") (some "t1")) := by
  have hc := claim_C1_builders_filter_exactly sampleDf "d1" "u1" "g1" "t1"
    ⟨"d1", "u1", "t1", "g1", 5, 10, 30⟩ (10, 30)
  refine ⟨hc.1.mpr (by decide), ?_⟩
  exact hc.2.2.mpr ⟨⟨"d1", "u1", "t1", "g1", 5, 10, 30⟩, by decide, by decide, rfl⟩

/-- C2: if any of the four selections is `None`, both chart builders return the
empty figure `go.Figure()` (and, being total functions, raise no failure). -/
theorem claim_C2_missing_selection_empty_chart (df : List BidRecord)
    (d u g rt : Option String)
    (h : d = none ∨ u = none ∨ g = none ∨ rt = none) :
    create_graph1 df d u g rt = goFigure ∧ create_graph2 df d u g rt = goFigure := by
  constructor
  · cases d <;> cases u <;> cases g <;> cases rt <;> first | rfl | simp at h
  · cases d <;> cases u <;> cases g <;> cases rt <;> first | rfl | simp at h

/-- Witness for C2: a missing date yields the empty figure from both builders. -/
theorem claim_C2_missing_selection_empty_chart_witness :
    create_graph1 sampleDf none (some "u1") (some "g1") (some "t1") = goFigure ∧
    create_graph2 sampleDf none (some "u1") (some "g1") (some "t1") = goFigure :=
  claim_C2_missing_selection_empty_chart sampleDf none (some "u1") (some "g1")
    (some "t1") (Or.inl rfl)

/-- C3: the dispatcher returns the empty figure when nothing has triggered;
dispatches to `create_graph1` when the most recent trigger is `btn-graph1`
with a positive click count, to `create_graph2` when it is `btn-graph2` with a
positive click count, and returns the empty figure in every other state. -/
theorem claim_C3_dispatcher_cases (df : List BidRecord) (t : TriggerEntry)
    (ts : List TriggerEntry) (btn1 btn2 : Nat) (d u g rt : Option String) :
    display_graph df [] btn1 btn2 d u g rt = goFigure ∧
    ((pySplit t.prop_id '.').headD "" = "btn-graph1" → 0 < btn1 →
      display_graph df (t :: ts) btn1 btn2 d u g rt = create_graph1 df d u g rt) ∧
    ((pySplit t.prop_id '.').headD "" = "btn-graph2" → 0 < btn2 →
      display_graph df (t :: ts) btn1 btn2 d u g rt = create_graph2 df d u g rt) ∧
    (¬((pySplit t.prop_id '.').headD "" = "btn-graph1" ∧ 0 < btn1) →
      ¬((pySplit t.prop_id '.').headD "" = "btn-graph2" ∧ 0 < btn2) →
      display_graph df (t :: ts) btn1 btn2 d u g rt = goFigure) := by
  refine ⟨rfl, ?_, ?_, ?_⟩
  · intro hid hb
    have c1 : (((pySplit t.prop_id '.').headD "" == "btn-graph1") &&
        decide (0 < btn1)) = true := by
      simp only [Bool.and_eq_true, beq_iff_eq, decide_eq_true_eq]
      exact ⟨hid, hb⟩
    simp only [display_graph]
    rw [if_pos c1]
  · intro hid hb
    have c1 : ¬((((pySplit t.prop_id '.').headD "" == "btn-graph1") &&
        decide (0 < btn1)) = true) := by
      simp only [Bool.and_eq_true, beq_iff_eq, decide_eq_true_eq]
      rintro ⟨hx, -⟩
      rw [hid] at hx
      exact absurd hx (by decide)
    have c2 : (((pySplit t.prop_id '.').headD "" == "btn-graph2") &&
        decide (0 < btn2)) = true := by
      simp only [Bool.and_eq_true, beq_iff_eq, decide_eq_true_eq]
      exact ⟨hid, hb⟩
    simp only [display_graph]
    rw [if_neg c1, if_pos c2]
  · intro hb1 hb2
    have c1 : ¬((((pySplit t.prop_id '.').headD "" == "btn-graph1") &&
        decide (0 < btn1)) = true) := by
      simp only [Bool.and_eq_true, beq_iff_eq, decide_eq_true_eq]
      exact hb1
    have c2 : ¬((((pySplit t.prop_id '.').headD "" == "btn-graph2") &&
        decide (0 < btn2)) = true) := by
      simp only [Bool.and_eq_true, beq_iff_eq, decide_eq_true_eq]
      exact hb2
    simp only [display_graph]
    rw [if_neg c1, if_neg c2]

/-- Witness for C3: with `btn-graph1.n_clicks` as the most recent trigger and
one click, the dispatcher renders the per-hour grid. -/
theorem claim_C3_dispatcher_cases_witness :
    display_graph sampleDf [⟨"btn-graph1.n_clicks"⟩] 1 0 (some "d1") (some "u1")
      (some "g1") (some "t1") =
      create_graph1 sampleDf (some "d1") (some "u1") (some "g1") (some "t1") :=
  (claim_C3_dispatcher_cases sampleDf ⟨"btn-graph1.n_clicks"⟩ [] 1 0 (some "d1")
    (some "u1") (some "g1") (some "t1")).2.1 (by decide) (by decide)

/-- C4: the per-hour grid builder uses a fixed 4×6 grid titled `Hour 1` …
`Hour 24`, places the panel of every hour present in the filtered subset at
row `(h−1)//6 + 1`, column `(h−1)%6 + 1` (hour 7 at row 2, column 1), and —
given the data model's guarantee that hour-ending values lie in 1..24 — never
populates more than 24 panels. -/
theorem claim_C4_per_hour_grid (df : List BidRecord) (d u g rt : String) :
    (create_graph1 df (some d) (some u) (some g) (some rt)).subplotRows = 4 ∧
    (create_graph1 df (some d) (some u) (some g) (some rt)).subplotCols = 6 ∧
    (create_graph1 df (some d) (some u) (some g) (some rt)).subplotTitles =
      (List.range 24).map (fun i => "Hour " ++ toString (i + 1)) ∧
    (∀ h : Int, (∃ r ∈ filterDf df d u g rt, r.hourEnding = h) →
      ∃ tr ∈ (create_graph1 df (some d) (some u) (some g) (some rt)).traces,
        tr.name = "Hour " ++ toString h ∧
        tr.row = some (subplotRow h) ∧ tr.col = some (subplotCol h)) ∧
    subplotRow 7 = 2 ∧ subplotCol 7 = 1 ∧
    ((∀ r ∈ df, 1 ≤ r.hourEnding ∧ r.hourEnding ≤ 24) →
      (create_graph1 df (some d) (some u) (some g) (some rt)).traces.length ≤ 24) := by
  refine ⟨rfl, rfl, rfl, ?_, by decide, by decide, ?_⟩
  · intro h hmem
    exact ⟨graph1Trace (filterDf df d u g rt) h,
      List.mem_map_of_mem _ ((mem_groupbyHourKeys _ _).mpr hmem), rfl, rfl, rfl⟩
  · intro hall
    have hlen : (create_graph1 df (some d) (some u) (some g) (some rt)).traces.length =
        (uniqueList ((filterDf df d u g rt).map (·.hourEnding))).length := by
      simp only [create_graph1, List.length_map, groupbyHourKeys, List.length_mergeSort]
    rw [hlen]
    have hnd := nodup_uniqueList ((filterDf df d u g rt).map (·.hourEnding))
    have hsub : (uniqueList ((filterDf df d u g rt).map (·.hourEnding))).toFinset ⊆
        Finset.Icc (1 : Int) 24 := by
      intro x hx
      rw [List.mem_toFinset, mem_uniqueList] at hx
      rcases List.mem_map.mp hx with ⟨r, hr, rfl⟩
      have hb := hall r ((mem_filterDf df d u g rt r).mp hr).1
      rw [Finset.mem_Icc]
      exact hb
    calc (uniqueList ((filterDf df d u g rt).map (·.hourEnding))).length
        = (uniqueList ((filterDf df d u g rt).map (·.hourEnding))).toFinset.card :=
          (List.toFinset_card_of_nodup hnd).symm
      _ ≤ (Finset.Icc (1 : Int) 24).card := Finset.card_le_card hsub
      _ = 24 := by rw [Int.card_Icc]; decide

/-- Witness for C4: on the sample dataframe hour 7 gets a panel at the grid
cell computed from the formula, and at most 24 panels are populated. -/
theorem claim_C4_per_hour_grid_witness :
    (∃ tr ∈ (create_graph1 sampleDf (some "d1") (some "u1") (some "g1")
        (some "t1")).traces,
      tr.name = "Hour " ++ toString (7 : Int) ∧ tr.row = some (subplotRow 7) ∧
        tr.col = some (subplotCol 7)) ∧
    (create_graph1 sampleDf (some "d1") (some "u1") (some "g1")
      (some "t1")).traces.length ≤ 24 := by
  refine ⟨(claim_C4_per_hour_grid sampleDf "d1" "u1" "g1" "t1").2.2.2.1 7
    ⟨⟨"d1", "u1", "t1", "g1", 7, 12, 32⟩, by decide, rfl⟩,
    (claim_C4_per_hour_grid sampleDf "d1" "u1" "g1" "t1").2.2.2.2.2.2 (by decide)⟩

/-- C10: when every hour-ending of the dataset lies in 1..24, every panel
position computed by `create_graph1` satisfies `1 ≤ row ≤ 4` and
`1 ≤ col ≤ 6`, so no trace is ever placed outside the 4×6 grid; the guarantee
fails outside 1..24 — hour 25 yields row 5. -/
theorem claim_C10_placement_in_grid (df : List BidRecord) (d u g rt : String)
    (h : Int) (hh1 : 1 ≤ h) (hh2 : h ≤ 24)
    (hall : ∀ r ∈ df, 1 ≤ r.hourEnding ∧ r.hourEnding ≤ 24) :
    (1 ≤ subplotRow h ∧ subplotRow h ≤ 4 ∧ 1 ≤ subplotCol h ∧ subplotCol h ≤ 6) ∧
    (∀ tr ∈ (create_graph1 df (some d) (some u) (some g) (some rt)).traces,
      ∃ ro co : Int, tr.row = some ro ∧ tr.col = some co ∧
        1 ≤ ro ∧ ro ≤ 4 ∧ 1 ≤ co ∧ co ≤ 6) ∧
    subplotRow 25 = 5 ∧ ¬ subplotRow 25 ≤ 4 := by
  refine ⟨subplot_bounds h hh1 hh2, ?_, by decide, by decide⟩
  intro tr htr
  have htr2 : tr ∈ (groupbyHourKeys (filterDf df d u g rt)).map
      (graph1Trace (filterDf df d u g rt)) := htr
  rcases List.mem_map.mp htr2 with ⟨h2, hh, rfl⟩
  rcases (mem_groupbyHourKeys _ _).mp hh with ⟨r, hrF, rfl⟩
  obtain ⟨ha, hb⟩ := hall r ((mem_filterDf df d u g rt r).mp hrF).1
  obtain ⟨b1, b2, b3, b4⟩ := subplot_bounds r.hourEnding ha hb
  exact ⟨subplotRow r.hourEnding, subplotCol r.hourEnding, rfl, rfl, b1, b2, b3, b4⟩

/-- Witness for C10 at hour 7 on the sample dataframe. -/
theorem claim_C10_placement_in_grid_witness :
    (1 ≤ subplotRow 7 ∧ subplotRow 7 ≤ 4 ∧ 1 ≤ subplotCol 7 ∧ subplotCol 7 ≤ 6) ∧
    subplotRow 25 = 5 := by
  have hc := claim_C10_placement_in_grid sampleDf "d1" "u1" "g1" "t1" 7
    (by decide) (by decide) (by decide)
  exact ⟨hc.1, hc.2.2.1⟩

theorem map_value_mk (l : List String) :
    (l.map (fun v => (⟨v, v⟩ : DropOption))).map (·.value) = l := by
  rw [List.map_map]
  exact List.map_id l

theorem map_value_update_generator (df : List BidRecord) (rt : String) :
    (update_generator_dropdown df (some rt)).map (·.value) =
      uniqueList ((df.filter (fun r => r.resourceType == rt)).map (·.qse)) :=
  map_value_mk _

theorem map_value_update_unit (df : List BidRecord) (g rt : String) :
    (update_unit_dropdown df (some g) (some rt)).map (·.value) =
      uniqueList ((df.filter (fun r =>
        r.qse == g && r.resourceType == rt)).map (·.resourceName)) :=
  map_value_mk _

theorem map_value_update_date (df : List BidRecord) (u g rt : String) :
    (update_date_dropdown df (some u) (some g) (some rt)).map (·.value) =
      uniqueList ((df.filter (fun r =>
        r.resourceName == u && r.qse == g && r.resourceType == rt)).map (·.deliveryDate)) :=
  map_value_mk _

/-- C5: with all upstream selections present, every dependent dropdown stage
returns exactly the distinct values of the next attribute among the matching
records — each value once (`Nodup`), membership coinciding with presence in
the matching subset, and listed in source order of first appearance (sorted by
first index in the projected source column). -/
theorem claim_C5_dropdown_stages_distinct_stable (df : List BidRecord)
    (rt g u : String) :
    (((update_generator_dropdown df (some rt)).map (·.value)).Nodup ∧
      (∀ v : String, v ∈ (update_generator_dropdown df (some rt)).map (·.value) ↔
        v ∈ (df.filter (fun r => r.resourceType == rt)).map (·.qse)) ∧
      ((update_generator_dropdown df (some rt)).map (·.value)).Pairwise
        (fun a b => ((df.filter (fun r => r.resourceType == rt)).map (·.qse)).indexOf a <
          ((df.filter (fun r => r.resourceType == rt)).map (·.qse)).indexOf b)) ∧
    (((update_unit_dropdown df (some g) (some rt)).map (·.value)).Nodup ∧
      (∀ v : String, v ∈ (update_unit_dropdown df (some g) (some rt)).map (·.value) ↔
        v ∈ (df.filter (fun r => r.qse == g && r.resourceType == rt)).map (·.resourceName)) ∧
      ((update_unit_dropdown df (some g) (some rt)).map (·.value)).Pairwise
        (fun a b =>
          ((df.filter (fun r => r.qse == g && r.resourceType == rt)).map
            (·.resourceName)).indexOf a <
          ((df.filter (fun r => r.qse == g && r.resourceType == rt)).map
            (·.resourceName)).indexOf b)) ∧
    (((update_date_dropdown df (some u) (some g) (some rt)).map (·.value)).Nodup ∧
      (∀ v : String, v ∈ (update_date_dropdown df (some u) (some g) (some rt)).map (·.value) ↔
        v ∈ (df.filter (fun r =>
          r.resourceName == u && r.qse == g && r.resourceType == rt)).map (·.deliveryDate)) ∧
      ((update_date_dropdown df (some u) (some g) (some rt)).map (·.value)).Pairwise
        (fun a b =>
          ((df.filter (fun r =>
            r.resourceName == u && r.qse == g && r.resourceType == rt)).map
              (·.deliveryDate)).indexOf a <
          ((df.filter (fun r =>
            r.resourceName == u && r.qse == g && r.resourceType == rt)).map
              (·.deliveryDate)).indexOf b)) := by
  refine ⟨?_, ?_, ?_⟩
  · rw [map_value_update_generator]
    exact ⟨nodup_uniqueList _, fun v => mem_uniqueList v _, pairwise_indexOf_uniqueList _⟩
  · rw [map_value_update_unit]
    exact ⟨nodup_uniqueList _, fun v => mem_uniqueList v _, pairwise_indexOf_uniqueList _⟩
  · rw [map_value_update_date]
    exact ⟨nodup_uniqueList _, fun v => mem_uniqueList v _, pairwise_indexOf_uniqueList _⟩

/-- C6: each dependent dropdown stage returns the empty option list when any
upstream selection in its chain is `None` — through the explicit guard for the
immediately preceding selection, and through the all-`False` pandas `== None`
mask for the earlier ones. -/
theorem claim_C6_any_upstream_none_empty (df : List BidRecord)
    (g rt : Option String) (g2 u2 : String) :
    update_generator_dropdown df none = [] ∧
    update_unit_dropdown df none rt = [] ∧
    update_unit_dropdown df (some g2) none = [] ∧
    update_date_dropdown df none g rt = [] ∧
    update_date_dropdown df (some u2) none rt = [] ∧
    update_date_dropdown df (some u2) g none = [] := by
  refine ⟨rfl, rfl, ?_, rfl, ?_, ?_⟩
  · simp [update_unit_dropdown, pandasEq, uniqueList, uniqueAux]
  · simp [update_date_dropdown, pandasEq, uniqueList, uniqueAux]
  · simp [update_date_dropdown, pandasEq, uniqueList, uniqueAux]

/-- C7: for fully-specified selections the combined overlay emits exactly one
series per distinct hour-ending present in the filtered subset — the trace
count equals the number of distinct hours, every present hour has a series
carrying exactly its group's data, every series arises from a present hour —
with all series in `markers+lines` mode and the legend visible. -/
theorem claim_C7_one_series_per_distinct_hour (df : List BidRecord)
    (d u g rt : String) :
    (create_graph2 df (some d) (some u) (some g) (some rt)).traces.length =
      ((filterDf df d u g rt).map (·.hourEnding)).toFinset.card ∧
    (∀ h : Int, (∃ r ∈ filterDf df d u g rt, r.hourEnding = h) →
      ∃ tr ∈ (create_graph2 df (some d) (some u) (some g) (some rt)).traces,
        tr.name = "Hour " ++ toString h ∧ tr.mode = "markers+lines" ∧
        tr.x = (hourGroup (filterDf df d u g rt) h).map (·.supplyBidValue) ∧
        tr.y = (hourGroup (filterDf df d u g rt) h).map (·.priceBidValue)) ∧
    (∀ tr ∈ (create_graph2 df (some d) (some u) (some g) (some rt)).traces,
      ∃ h : Int, (∃ r ∈ filterDf df d u g rt, r.hourEnding = h) ∧
        tr = graph2Trace (filterDf df d u g rt) h) ∧
    (∀ tr ∈ (create_graph2 df (some d) (some u) (some g) (some rt)).traces,
      tr.mode = "markers+lines") ∧
    (create_graph2 df (some d) (some u) (some g) (some rt)).showlegend = some true := by
  refine ⟨?_, ?_, ?_, ?_, rfl⟩
  · have hl : (create_graph2 df (some d) (some u) (some g) (some rt)).traces.length =
        (graph2SeriesHours df d u g rt).length := by
      simp only [create_graph2, List.length_map]
    rw [hl, graph2SeriesHours, ← toFinset_uniqueList]
    exact (List.toFinset_card_of_nodup (nodup_uniqueList _)).symm
  · intro h hmem
    exact ⟨graph2Trace (filterDf df d u g rt) h,
      List.mem_map_of_mem _ ((mem_graph2SeriesHours df d u g rt h).mpr hmem),
      rfl, rfl, rfl, rfl⟩
  · intro tr htr
    have htr2 : tr ∈ (graph2SeriesHours df d u g rt).map
        (graph2Trace (filterDf df d u g rt)) := htr
    rcases List.mem_map.mp htr2 with ⟨h, hh, rfl⟩
    exact ⟨h, (mem_graph2SeriesHours df d u g rt h).mp hh, rfl⟩
  · intro tr htr
    have htr2 : tr ∈ (graph2SeriesHours df d u g rt).map
        (graph2Trace (filterDf df d u g rt)) := htr
    rcases List.mem_map.mp htr2 with ⟨h, hh, rfl⟩
    rfl

/-- Witness for C7: on the sample dataframe the overlay has one series per
distinct hour and hour 5 has its series. -/
theorem claim_C7_one_series_per_distinct_hour_witness :
    (create_graph2 sampleDf (some "d1") (some "u1") (some "g1")
        (some "t1")).traces.length =
      ((filterDf sampleDf "d1" "u1" "g1" "t1").map (·.hourEnding)).toFinset.card ∧
    ∃ tr ∈ (create_graph2 sampleDf (some "d1") (some "u1") (some "g1")
        (some "t1")).traces,
      tr.name = "Hour " ++ toString (5 : Int) ∧ tr.mode = "markers+lines" ∧
      tr.x = (hourGroup (filterDf sampleDf "d1" "u1" "g1" "t1") 5).map (·.supplyBidValue) ∧
      tr.y = (hourGroup (filterDf sampleDf "d1" "u1" "g1" "t1") 5).map (·.priceBidValue) :=
  ⟨(claim_C7_one_series_per_distinct_hour sampleDf "d1" "u1" "g1" "t1").1,
    (claim_C7_one_series_per_distinct_hour sampleDf "d1" "u1" "g1" "t1").2.1 5
      ⟨⟨"d1", "u1", "t1", "g1", 5, 10, 30⟩, by decide, rfl⟩⟩

/-- C8 counterexample: on a dataframe whose rows for the selected slice carry
hours in source order 5, 2, 7, the overlay's series follow `unique()` order
[5, 2, 7], which is not ascending — the earlier series (hour 5) has a larger
hour-ending than the next (hour 2). -/
theorem claim_C8_ascending_counterexample :
    (create_graph2 sampleDf (some "d1") (some "u1") (some "g1") (some "t1")).traces =
      (graph2SeriesHours sampleDf "d1" "u1" "g1" "t1").map
        (graph2Trace (filterDf sampleDf "d1" "u1" "g1" "t1")) ∧
    graph2SeriesHours sampleDf "d1" "u1" "g1" "t1" = [5, 2, 7] ∧
    ¬ (graph2SeriesHours sampleDf "d1" "u1" "g1" "t1").Pairwise (· < ·) :=
  ⟨rfl, by decide, by decide⟩

/-- C8 (amended): the overlay's series are added in order of first appearance
of their hour-ending in the filtered subset (ascending first-occurrence index,
not ascending hour value). -/
theorem claim_C8_series_first_appearance_order (df : List BidRecord)
    (d u g rt : String) :
    (create_graph2 df (some d) (some u) (some g) (some rt)).traces =
      (graph2SeriesHours df d u g rt).map (graph2Trace (filterDf df d u g rt)) ∧
    (graph2SeriesHours df d u g rt).Pairwise
      (fun a b => ((filterDf df d u g rt).map (·.hourEnding)).indexOf a <
        ((filterDf df d u g rt).map (·.hourEnding)).indexOf b) :=
  ⟨rfl, pairwise_indexOf_uniqueList _⟩

/-- C9: every callback is deterministic — equal inputs give equal outputs —
and none of them modifies the loaded dataset: each state-passing wrapper
returns the process state unchanged. -/
theorem claim_C9_deterministic_and_immutable (st : AppState)
    (triggered : List TriggerEntry) (btn1 btn2 : Nat) (d u g rt : Option String) :
    runCreateGraph1 st d u g rt = runCreateGraph1 st d u g rt ∧
    (runCreateGraph1 st d u g rt).2 = st ∧
    runCreateGraph2 st d u g rt = runCreateGraph2 st d u g rt ∧
    (runCreateGraph2 st d u g rt).2 = st ∧
    runUpdateGeneratorDropdown st rt = runUpdateGeneratorDropdown st rt ∧
    (runUpdateGeneratorDropdown st rt).2 = st ∧
    runUpdateUnitDropdown st g rt = runUpdateUnitDropdown st g rt ∧
    (runUpdateUnitDropdown st g rt).2 = st ∧
    runUpdateDateDropdown st u g rt = runUpdateDateDropdown st u g rt ∧
    (runUpdateDateDropdown st u g rt).2 = st ∧
    runDisplayGraph st triggered btn1 btn2 d u g rt =
      runDisplayGraph st triggered btn1 btn2 d u g rt ∧
    (runDisplayGraph st triggered btn1 btn2 d u g rt).2 = st :=
  ⟨rfl, rfl, rfl, rfl, rfl, rfl, rfl, rfl, rfl, rfl, rfl, rfl⟩
